import Mathlib

/-!
Shallow embedding of the Meraki guest-PSK rotation utility
(`app/meraki_api.py`, `app/funcs.py`, `app/webex_api.py`, `app/main.py`).

The vendor dashboard client (`self.dashboard.…`) is modelled as a record of
pure functions that either succeed or fail with a Python-style exception.
Each embedded operation additionally returns the list of API calls it issued,
so that statements about which endpoints were (or were not) hit are provable.
-/

/-- A Meraki network as consumed by the workflow: `network['id']`,
`network['name']`, `network.get('tags', [])`. -/
structure Network where
  id : String
  name : String
  tags : List String
deriving DecidableEq

/-- One SSID entry as returned by the SSID listing / detail endpoints:
`ssid['name']` and `ssid['number']`. -/
structure Ssid where
  name : String
  number : Nat
deriving DecidableEq

/-- Python exceptions relevant to the embedded code: `ValueError` (raised by
`get_ssid_num` and the unsupported-type branches, and the only class caught by
`except ValueError`) versus any other exception surfaced by the vendor client
(`meraki.APIError`, transport errors, ...), caught only by bare
`except Exception`. -/
inductive PyErr where
  | valueError (msg : String)
  | apiError (msg : String)
deriving DecidableEq

/-- The string Python would interpolate for the exception (`f"... {e}"`). -/
def errStr : PyErr → String
  | .valueError m => m
  | .apiError m => m

/-- A call issued to the vendor dashboard, one constructor per endpoint the
embedded code uses. -/
inductive ApiCall where
  | updateNetworkWirelessSsid (networkId : String) (number : Nat) (psk : String)
  | updateNetworkApplianceSsid (networkId : String) (number : Nat) (psk : String)
  | updateNetworkAppliance (networkId : String) (number : Nat) (psk : String)
  | getNetworkWirelessSsids (networkId : String)
  | getNetworkApplianceSsids (networkId : String)
  | getNetworkWirelessSsid (networkId : String) (number : Nat)
  | getApplianceWireless (networkId : String) (number : Nat)
deriving DecidableEq

/-- Endpoints that mutate dashboard state (the three update calls). -/
def ApiCall.isMutating : ApiCall → Bool
  | .updateNetworkWirelessSsid _ _ _ => true
  | .updateNetworkApplianceSsid _ _ _ => true
  | .updateNetworkAppliance _ _ _ => true
  | _ => false

/-- The vendor dashboard client, one field per endpoint used by the code.
Responses are deterministic functions of the arguments; an `Except.error`
models the Python call raising. -/
structure Dashboard where
  updateNetworkWirelessSsid : String → Nat → String → Except PyErr Unit
  updateNetworkApplianceSsid : String → Nat → String → Except PyErr Unit
  updateNetworkAppliance : String → Nat → String → Except PyErr Unit
  getNetworkWirelessSsids : String → Except PyErr (List Ssid)
  getNetworkApplianceSsids : String → Except PyErr (List Ssid)
  getNetworkWirelessSsid : String → Nat → Except PyErr Ssid
  getApplianceWireless : String → Nat → Except PyErr Ssid

/-- `f"Updated PSK for MR Wireless SSID number {mr_ssid_number} for
'{network['name']}' with network ID '{network_id}'"` (meraki_api.py:154). -/
def mrSuccessMsg (mr_ssid_number : Nat) (network_name network_id : String) : String :=
  s!"Updated PSK for MR Wireless SSID number {mr_ssid_number} for \x27{network_name}\x27 with network ID \x27{network_id}\x27"

/-- `f"Failed to update PSK for MR Wireless SSID number {mr_ssid_number} for
'{network['name']}' with network ID '{network_id}': {e}"` (meraki_api.py:157). -/
def mrFailMsg (mr_ssid_number : Nat) (network_name network_id e : String) : String :=
  s!"Failed to update PSK for MR Wireless SSID number {mr_ssid_number} for \x27{network_name}\x27 with network ID \x27{network_id}\x27: {e}"

/-- `f"Updated PSK for Appliance (MX) SSID number {mx_ssid_number} for
'{network['name']}' with network ID '{network_id}'"` (meraki_api.py:165). -/
def mxSuccessMsg (mx_ssid_number : Nat) (network_name network_id : String) : String :=
  s!"Updated PSK for Appliance (MX) SSID number {mx_ssid_number} for \x27{network_name}\x27 with network ID \x27{network_id}\x27"

/-- `f"Failed to update PSK for Appliance (MX) SSID number {mx_ssid_number} for
'{network['name']}' with network ID '{network_id}': {e}"` (meraki_api.py:168). -/
def mxFailMsg (mx_ssid_number : Nat) (network_name network_id e : String) : String :=
  s!"Failed to update PSK for Appliance (MX) SSID number {mx_ssid_number} for \x27{network_name}\x27 with network ID \x27{network_id}\x27: {e}"

/-- The body of one iteration of the `for network in all_networks:` loop of
`update_ssid_by_num_for_tagged_networks` (meraki_api.py:145-169): the entries
this network appends to `mr_successful_updates`, to `mr_failed_updates`
(note: the `'MXW-GuestPSK'` branch also appends to the `mr_` lists in the
source), and the dashboard calls it issues.  Each branch wraps its update call
in `try`/`except Exception`, turning a raise into a failure entry. -/
def processTaggedNetwork (d : Dashboard) (new_psk : String)
    (mr_ssid_number mx_ssid_number : Nat) (network : Network) :
    List String × List String × List ApiCall :=
  let mrPart : List String × List String × List ApiCall :=
    if "MX-GuestPSK" ∈ network.tags then
      match d.updateNetworkWirelessSsid network.id mr_ssid_number new_psk with
      | .ok _ =>
          ([mrSuccessMsg mr_ssid_number network.name network.id], [],
           [ApiCall.updateNetworkWirelessSsid network.id mr_ssid_number new_psk])
      | .error e =>
          ([], [mrFailMsg mr_ssid_number network.name network.id (errStr e)],
           [ApiCall.updateNetworkWirelessSsid network.id mr_ssid_number new_psk])
    else ([], [], [])
  let mxPart : List String × List String × List ApiCall :=
    if "MXW-GuestPSK" ∈ network.tags then
      match d.updateNetworkApplianceSsid network.id mx_ssid_number new_psk with
      | .ok _ =>
          ([mxSuccessMsg mx_ssid_number network.name network.id], [],
           [ApiCall.updateNetworkApplianceSsid network.id mx_ssid_number new_psk])
      | .error e =>
          ([], [mxFailMsg mx_ssid_number network.name network.id (errStr e)],
           [ApiCall.updateNetworkApplianceSsid network.id mx_ssid_number new_psk])
    else ([], [], [])
  (mrPart.1 ++ mxPart.1, mrPart.2.1 ++ mxPart.2.1, mrPart.2.2 ++ mxPart.2.2)

/-- `update_ssid_by_num_for_tagged_networks` (meraki_api.py:132-191), with the
network list passed in place of the `get_networks(org_id)` fetch, and the
issued dashboard calls returned as a third component.  The loop accumulates
into `mr_successful_updates` / `mr_failed_updates` (both tag branches append
there in the source). -/
def update_ssid_by_num_for_tagged_networks_run (d : Dashboard) (new_psk : String)
    (all_networks : List Network) (mr_ssid_number mx_ssid_number : Nat) :
    List String × List String × List ApiCall :=
  all_networks.foldl
    (fun acc network =>
      let r := processTaggedNetwork d new_psk mr_ssid_number mx_ssid_number network
      (acc.1 ++ r.1, acc.2.1 ++ r.2.1, acc.2.2 ++ r.2.2))
    ([], [], [])

/-- The pair `(all_successful_updates, all_failed_updates)` the source function
returns (meraki_api.py:171-191): `mr_successful_updates + mx_successful_updates`
and `mr_failed_updates + mx_failed_updates`, where the `mx_` lists are never
appended to and stay empty. -/
def update_ssid_by_num_for_tagged_networks (d : Dashboard) (new_psk : String)
    (all_networks : List Network) (mr_ssid_number mx_ssid_number : Nat) :
    List String × List String :=
  let run := update_ssid_by_num_for_tagged_networks_run d new_psk all_networks
    mr_ssid_number mx_ssid_number
  let mr_successful_updates := run.1
  let mr_failed_updates := run.2.1
  let mx_successful_updates : List String := []
  let mx_failed_updates : List String := []
  (mr_successful_updates ++ mx_successful_updates, mr_failed_updates ++ mx_failed_updates)

/-- `fetch_ssids` (meraki_api.py:193-204) for the per-network update paths:
dispatches on the network type string and raises
`ValueError("Unsupported network type")` otherwise.  (The `'both'` branch,
which returns a pair of lists and is never reached from the single-SSID
update entry points, is not modelled.) -/
def fetch_ssids (d : Dashboard) (network_id network_type : String) :
    Except PyErr (List Ssid) × List ApiCall :=
  if network_type = "mrw" then
    (d.getNetworkWirelessSsids network_id, [ApiCall.getNetworkWirelessSsids network_id])
  else if network_type = "mxw" then
    (d.getNetworkApplianceSsids network_id, [ApiCall.getNetworkApplianceSsids network_id])
  else
    (.error (.valueError "Unsupported network type"), [])

/-- `get_ssid_num` (meraki_api.py:206-212): fetches the SSID list, returns the
`number` of the first entry whose `name` equals `ssid_name` exactly, and raises
`ValueError("SSID not found")` when no entry matches. -/
def get_ssid_num (d : Dashboard) (network_id ssid_name network_type : String) :
    Except PyErr Nat × List ApiCall :=
  let r := fetch_ssids d network_id network_type
  match r.1 with
  | .error e => (.error e, r.2)
  | .ok ssids =>
      match ssids.find? (fun ssid => ssid.name = ssid_name) with
      | some ssid => (.ok ssid.number, r.2)
      | none => (.error (.valueError "SSID not found"), r.2)

/-- `get_ssid_details_by_num` (meraki_api.py:214-224): the follow-up read of
one SSID slot.  The `'mxw'` branch calls the `getApplianceWireless` endpoint,
as in the source. -/
def get_ssid_details_by_num (d : Dashboard) (network_id : String)
    (ssid_number : Nat) (network_type : String) :
    Except PyErr Ssid × List ApiCall :=
  if network_type = "mrw" then
    (d.getNetworkWirelessSsid network_id ssid_number,
     [ApiCall.getNetworkWirelessSsid network_id ssid_number])
  else if network_type = "mxw" then
    (d.getApplianceWireless network_id ssid_number,
     [ApiCall.getApplianceWireless network_id ssid_number])
  else
    (.error (.valueError "Unsupported network type"), [])

/-- `update_ssid_psk_by_num` (meraki_api.py:226-236): issues the update call
for the given type (`'mxw'` uses the `updateNetworkAppliance` endpoint, as in
the source), raises `ValueError` on an unsupported type, then fetches and
returns the updated SSID details. -/
def update_ssid_psk_by_num (d : Dashboard) (network_id : String)
    (ssid_number : Nat) (psk network_type : String) :
    Except PyErr Ssid × List ApiCall :=
  let upd : Except PyErr Unit × List ApiCall :=
    if network_type = "mrw" then
      (d.updateNetworkWirelessSsid network_id ssid_number psk,
       [ApiCall.updateNetworkWirelessSsid network_id ssid_number psk])
    else if network_type = "mxw" then
      (d.updateNetworkAppliance network_id ssid_number psk,
       [ApiCall.updateNetworkAppliance network_id ssid_number psk])
    else
      (.error (.valueError "Unsupported network type"), [])
  match upd.1 with
  | .error e => (.error e, upd.2)
  | .ok _ =>
      let r := get_ssid_details_by_num d network_id ssid_number network_type
      (r.1, upd.2 ++ r.2)

/-- `update_ssid_psk_by_name_for_network` (meraki_api.py:238-250): for
`'mrw'`, resolves the name to a slot number and delegates to
`update_ssid_psk_by_num`, discarding its return value; for `'mxw'` the body is
`pass`; any other type falls through the `if`/`elif` chain.  The whole body is
wrapped in `try`/`except ValueError`, which logs and returns normally; the
function always returns `None` (here `Unit`), so any fetched SSID details are
dropped.  Exceptions other than `ValueError` propagate. -/
def update_ssid_psk_by_name_for_network (d : Dashboard) (network_id : String)
    (ssid_name psk network_type : String) :
    Except PyErr Unit × List ApiCall :=
  let body : Except PyErr Unit × List ApiCall :=
    if network_type = "mrw" then
      let r₁ := get_ssid_num d network_id ssid_name network_type
      match r₁.1 with
      | .error e => (.error e, r₁.2)
      | .ok ssid_number =>
          let r₂ := update_ssid_psk_by_num d network_id ssid_number psk network_type
          match r₂.1 with
          | .error e => (.error e, r₁.2 ++ r₂.2)
          | .ok _ => (.ok (), r₁.2 ++ r₂.2)
    else if network_type = "mxw" then
      (.ok (), [])
    else
      (.ok (), [])
  match body.1 with
  | .error (.valueError _) => (.ok (), body.2)
  | .error (.apiError m) => (.error (.apiError m), body.2)
  | .ok _ => (.ok (), body.2)

/-- One hexadecimal digit, lower case, as `json.dump` uses in `\uXXXX`
escapes. -/
def hexDigit (n : Nat) : Char :=
  "0123456789abcdef".toList.getD n (Char.ofNat 48)

/-- How `json.dump` escapes a single character inside a JSON string:
`"` and `\` are backslash-escaped, the common control characters get their
short escapes, remaining control characters get `\u00XX`, everything else is
emitted as is (`ensure_ascii` only matters for non-ASCII text, which the
report entries never contain). -/
def jsonEscapeChar (ch : Char) : String :=
  if ch.val = 34 then "\\\""
  else if ch.val = 92 then "\\\\"
  else if ch.val = 10 then "\\n"
  else if ch.val = 13 then "\\r"
  else if ch.val = 9 then "\\t"
  else if ch.val = 8 then "\\b"
  else if ch.val = 12 then "\\f"
  else if ch.val < 32 then
    "\\u00" ++ (hexDigit (ch.toNat / 16)).toString ++ (hexDigit (ch.toNat % 16)).toString
  else ch.toString

/-- A JSON string literal for `s`, as `json.dump` serialises it. -/
def jsonString (s : String) : String :=
  "\"" ++ String.join (s.toList.map jsonEscapeChar) ++ "\""

/-- `json.dump(lst, file, indent=4)` for a list of strings: `[]` for the empty
list; otherwise one element per line indented by four spaces, with the closing
bracket back at column zero. -/
def json_dump_indent4 : List String → String
  | [] => "[]"
  | x :: xs =>
      "[\n    " ++ String.intercalate ",\n    " ((x :: xs).map jsonString) ++ "\n]"

/-- `c.DATA_FILE_PATH` (config.py: `DIR_PATH / 'app' / 'data'`), the directory
both report files are placed in; its concrete value depends on the install
location and is irrelevant to the claims. -/
def DATA_FILE_PATH : String := "app/data"

/-- `os.path.flatten(c.DATA_FILE_PATH, f"successful_psk_changes_{timestamp}.json")`
(funcs.py:48). -/
def success_file_path (timestamp : String) : String :=
  DATA_FILE_PATH ++ "/successful_psk_changes_" ++ timestamp ++ ".json"

/-- `os.path.flatten(c.DATA_FILE_PATH, f"unsuccessful_psk_changes_{timestamp}.json")`
(funcs.py:49). -/
def failure_file_path (timestamp : String) : String :=
  DATA_FILE_PATH ++ "/unsuccessful_psk_changes_" ++ timestamp ++ ".json"

/-- `generate_reports` (funcs.py:46-59), with the strftime timestamp passed in.
Returns the list of `(path, content)` files written during the call together
with the pair `(success_file_path, failure_file_path)` the function returns.
A list's file is written only when the list is truthy (non-empty); the two
path strings are returned unconditionally. -/
def generate_reports (timestamp : String)
    (successful_updates failed_updates : List String) :
    List (String × String) × String × String :=
  let sp := success_file_path timestamp
  let fp := failure_file_path timestamp
  let successWrites : List (String × String) :=
    if successful_updates.isEmpty then [] else [(sp, json_dump_indent4 successful_updates)]
  let failureWrites : List (String × String) :=
    if failed_updates.isEmpty then [] else [(fp, json_dump_indent4 failed_updates)]
  (successWrites ++ failureWrites, sp, fp)

/-- The Webex messages endpoint `self.api.messages.create(roomId=…, text=…)` /
`(roomId=…, files=[path], text="Attached File")`, modelled as one function
taking the room id, the text, and the optional attachment path. -/
structure WebexApi where
  createMessage : String → String → Option String → Except PyErr Unit

/-- The attachment loop of `send_webex_message` (webex_api.py:85-90): each
existing path is posted as `"Attached File"`; a missing path is only logged.
A raise from any post aborts the remaining posts (it is caught by the
enclosing `except` in `send_webex_message`). -/
def sendAttachments (api : WebexApi) (room_id : String)
    (pathExists : String → Bool) : List String → Except PyErr Unit
  | [] => .ok ()
  | p :: rest =>
      if pathExists p then
        match api.createMessage room_id "Attached File" (some p) with
        | .error e => .error e
        | .ok _ => sendAttachments api room_id pathExists rest
      else sendAttachments api room_id pathExists rest

/-- `send_webex_message` (webex_api.py:79-94): posts the text message, then the
attachments; the whole body is wrapped in `try`/`except Exception`, which logs
the failure and returns normally, so the function never raises. -/
def send_webex_message (api : WebexApi) (room_id : String)
    (pathExists : String → Bool) (message : String) (file_paths : List String) :
    Except PyErr Unit :=
  let body : Except PyErr Unit :=
    match api.createMessage room_id message none with
    | .error e => .error e
    | .ok _ => sendAttachments api room_id pathExists file_paths
  match body with
  | .error _ => .ok ()
  | .ok _ => .ok ()

/-- `run_psk_change` (main.py:46-59), with the organization's network list, the
report timestamp, the Webex room id, and the filesystem-existence predicate
passed in for their runtime lookups.  Calls the bulk update with the default
slot numbers (2, 2); when any outcome exists, writes the reports and, when
requested, sends the Webex notification.  Returns the two outcome lists, the
report files written, and the (always non-raising) notification result. -/
def run_psk_change (d : Dashboard) (api : WebexApi) (room_id : String)
    (pathExists : String → Bool) (networks : List Network) (timestamp : String)
    (psk : String) (send_flag : Bool) :
    (List String × List String) × List (String × String) × Except PyErr Unit :=
  let r := update_ssid_by_num_for_tagged_networks d psk networks 2 2
  let successful_updates := r.1
  let failed_updates := r.2
  if successful_updates.isEmpty ∧ failed_updates.isEmpty then
    ((successful_updates, failed_updates), [], .ok ())
  else
    let reports := generate_reports timestamp successful_updates failed_updates
    let success_file := reports.2.1
    let failure_file := reports.2.2
    let notify : Except PyErr Unit :=
      if send_flag then
        send_webex_message api room_id pathExists "PSK Change Report" [success_file, failure_file]
      else .ok ()
    ((successful_updates, failed_updates), reports.1, notify)

/-- The outcome entries of the wireless attempt alone for one network: the
entry appended when the network carries the guest-wireless tag and the call
succeeds or raises, and nothing otherwise. -/
def mrAttemptOutcomes (d : Dashboard) (psk : String) (mrN : Nat)
    (network : Network) : List String × List String :=
  if "MX-GuestPSK" ∈ network.tags then
    match d.updateNetworkWirelessSsid network.id mrN psk with
    | .ok _ => ([mrSuccessMsg mrN network.name network.id], [])
    | .error e => ([], [mrFailMsg mrN network.name network.id (errStr e)])
  else ([], [])

/-- The outcome entries of the appliance attempt alone for one network. -/
def mxAttemptOutcomes (d : Dashboard) (psk : String) (mxN : Nat)
    (network : Network) : List String × List String :=
  if "MXW-GuestPSK" ∈ network.tags then
    match d.updateNetworkApplianceSsid network.id mxN psk with
    | .ok _ => ([mxSuccessMsg mxN network.name network.id], [])
    | .error e => ([], [mxFailMsg mxN network.name network.id (errStr e)])
  else ([], [])

/-- A dashboard on which every call succeeds; the SSID listing holds a single
SSID `"Guest"` in slot 5 and detail reads echo the requested slot back with
name `"Guest"`.  Used to instantiate hypotheses at concrete inputs. -/
def dashOk : Dashboard where
  updateNetworkWirelessSsid := fun _ _ _ => .ok ()
  updateNetworkApplianceSsid := fun _ _ _ => .ok ()
  updateNetworkAppliance := fun _ _ _ => .ok ()
  getNetworkWirelessSsids := fun _ => .ok [⟨"Guest", 5⟩]
  getNetworkApplianceSsids := fun _ => .ok [⟨"Guest", 5⟩]
  getNetworkWirelessSsid := fun _ num => .ok ⟨"Guest", num⟩
  getApplianceWireless := fun _ num => .ok ⟨"Guest", num⟩

/-- `dashOk`, except that every wireless SSID update on the network with id
`"NA"` raises an API error. -/
def dashFailNA : Dashboard :=
  { dashOk with
    updateNetworkWirelessSsid := fun nid _ _ =>
      if nid = "NA" then .error (.apiError "boom") else .ok () }

/-- A network tagged for the wireless guest update, with id `"NA"`. -/
def netA0 : Network := ⟨"NA", "Net A", ["MX-GuestPSK"]⟩

/-- A second tagged network, unrelated to `"NA"`. -/
def netB0 : Network := ⟨"NB", "Net B", ["MX-GuestPSK"]⟩

/-- Scenario network `{id:"N1", tags:["MX-GuestPSK"]}`. -/
def scenarioN1 : Network := ⟨"N1", "N1", ["MX-GuestPSK"]⟩

/-- Scenario network `{id:"N2", tags:["MXW-GuestPSK"]}`. -/
def scenarioN2 : Network := ⟨"N2", "N2", ["MXW-GuestPSK"]⟩

/-- Scenario network `{id:"N3", tags:[]}`. -/
def scenarioN3 : Network := ⟨"N3", "N3", []⟩

/-- The loop of the bulk update, started from an arbitrary accumulator,
appends each network's entries in enumeration order. -/
theorem bulk_foldl_eq (d : Dashboard) (psk : String) (mrN mxN : Nat) :
    ∀ (nets : List Network) (a b : List String) (c : List ApiCall),
      nets.foldl (fun acc network =>
          let r := processTaggedNetwork d psk mrN mxN network
          (acc.1 ++ r.1, acc.2.1 ++ r.2.1, acc.2.2 ++ r.2.2)) (a, b, c)
      = (a ++ (nets.map fun n => (processTaggedNetwork d psk mrN mxN n).1).flatten,
         b ++ (nets.map fun n => (processTaggedNetwork d psk mrN mxN n).2.1).flatten,
         c ++ (nets.map fun n => (processTaggedNetwork d psk mrN mxN n).2.2).flatten) := by
  intro nets
  induction nets with
  | nil => intro a b c; simp
  | cons n nets ih =>
      intro a b c
      simp only [List.foldl_cons, List.map_cons, List.flatten_cons]
      rw [ih]
      simp [List.append_assoc]

/-- The instrumented bulk run is the per-network entries joined in enumeration
order. -/
theorem bulk_run_eq_join (d : Dashboard) (psk : String) (mrN mxN : Nat)
    (nets : List Network) :
    update_ssid_by_num_for_tagged_networks_run d psk nets mrN mxN
      = ((nets.map fun n => (processTaggedNetwork d psk mrN mxN n).1).flatten,
         (nets.map fun n => (processTaggedNetwork d psk mrN mxN n).2.1).flatten,
         (nets.map fun n => (processTaggedNetwork d psk mrN mxN n).2.2).flatten) := by
  unfold update_ssid_by_num_for_tagged_networks_run
  rw [bulk_foldl_eq]
  simp

/-- The returned pair of the bulk update is the first two components of the
instrumented run (the `mx_` lists the source appends are empty). -/
theorem bulk_pair_eq_run (d : Dashboard) (psk : String) (mrN mxN : Nat)
    (nets : List Network) :
    update_ssid_by_num_for_tagged_networks d psk nets mrN mxN
      = ((update_ssid_by_num_for_tagged_networks_run d psk nets mrN mxN).1,
         (update_ssid_by_num_for_tagged_networks_run d psk nets mrN mxN).2.1) := by
  unfold update_ssid_by_num_for_tagged_networks
  simp

/-- Per network, the loop body's success entries are the wireless attempt's
followed by the appliance attempt's. -/
theorem processTaggedNetwork_fst (d : Dashboard) (psk : String) (mrN mxN : Nat)
    (network : Network) :
    (processTaggedNetwork d psk mrN mxN network).1
      = (mrAttemptOutcomes d psk mrN network).1 ++ (mxAttemptOutcomes d psk mxN network).1 := by
  unfold processTaggedNetwork mrAttemptOutcomes mxAttemptOutcomes
  by_cases h1 : "MX-GuestPSK" ∈ network.tags <;>
    by_cases h2 : "MXW-GuestPSK" ∈ network.tags <;>
      simp only [h1, h2, if_true, if_false] <;>
        cases d.updateNetworkWirelessSsid network.id mrN psk <;>
          cases d.updateNetworkApplianceSsid network.id mxN psk <;> simp

/-- Per network, the loop body's failure entries are the wireless attempt's
followed by the appliance attempt's. -/
theorem processTaggedNetwork_snd (d : Dashboard) (psk : String) (mrN mxN : Nat)
    (network : Network) :
    (processTaggedNetwork d psk mrN mxN network).2.1
      = (mrAttemptOutcomes d psk mrN network).2 ++ (mxAttemptOutcomes d psk mxN network).2 := by
  unfold processTaggedNetwork mrAttemptOutcomes mxAttemptOutcomes
  by_cases h1 : "MX-GuestPSK" ∈ network.tags <;>
    by_cases h2 : "MXW-GuestPSK" ∈ network.tags <;>
      simp only [h1, h2, if_true, if_false] <;>
        cases d.updateNetworkWirelessSsid network.id mrN psk <;>
          cases d.updateNetworkApplianceSsid network.id mxN psk <;> simp

/-- A tagged network's loop iteration issues the wireless update call at the
configured slot, whether the call succeeds or raises. -/
theorem processTaggedNetwork_wireless_call (d : Dashboard) (psk : String)
    (mrN mxN : Nat) (net : Network) (h : "MX-GuestPSK" ∈ net.tags) :
    ApiCall.updateNetworkWirelessSsid net.id mrN psk
      ∈ (processTaggedNetwork d psk mrN mxN net).2.2 := by
  unfold processTaggedNetwork
  simp only [if_pos h]
  cases d.updateNetworkWirelessSsid net.id mrN psk <;> simp

/-- A tagged network's loop iteration issues the appliance update call at the
configured slot, whether the call succeeds or raises. -/
theorem processTaggedNetwork_appliance_call (d : Dashboard) (psk : String)
    (mrN mxN : Nat) (net : Network) (h : "MXW-GuestPSK" ∈ net.tags) :
    ApiCall.updateNetworkApplianceSsid net.id mxN psk
      ∈ (processTaggedNetwork d psk mrN mxN net).2.2 := by
  unfold processTaggedNetwork
  simp only [if_pos h]
  cases d.updateNetworkWirelessSsid net.id mrN psk <;>
    cases d.updateNetworkApplianceSsid net.id mxN psk <;>
      by_cases h1 : "MX-GuestPSK" ∈ net.tags <;> simp [h1]

/-- Claim C2: in the bulk tagged-network workflow, each network's outcomes are
determined by case-sensitive exact membership of the two tags: the run's
success and failure lists are exactly the per-network entries joined, a
network contributes one outcome per matching tag (zero / one / two), and
case-variant tags such as `"mx-guestpsk"` or `"Mxw-GuestPSK"` match nothing. -/
theorem C2_outcomes_by_tag_membership (d : Dashboard) (psk : String)
    (mrN mxN : Nat) (nets : List Network) :
    ((update_ssid_by_num_for_tagged_networks d psk nets mrN mxN).1
        = (nets.map fun n => (processTaggedNetwork d psk mrN mxN n).1).flatten
      ∧ (update_ssid_by_num_for_tagged_networks d psk nets mrN mxN).2
        = (nets.map fun n => (processTaggedNetwork d psk mrN mxN n).2.1).flatten)
    ∧ (∀ network : Network,
        (processTaggedNetwork d psk mrN mxN network).1.length
          + (processTaggedNetwork d psk mrN mxN network).2.1.length
        = (if "MX-GuestPSK" ∈ network.tags then 1 else 0)
          + (if "MXW-GuestPSK" ∈ network.tags then 1 else 0))
    ∧ (∀ nid nname : String,
        processTaggedNetwork d psk mrN mxN ⟨nid, nname, ["mx-guestpsk", "Mxw-GuestPSK"]⟩
          = ([], [], [])) := by
  refine ⟨⟨?_, ?_⟩, ?_, ?_⟩
  · rw [bulk_pair_eq_run, bulk_run_eq_join]
  · rw [bulk_pair_eq_run, bulk_run_eq_join]
  · intro network
    unfold processTaggedNetwork
    by_cases h1 : "MX-GuestPSK" ∈ network.tags <;>
      by_cases h2 : "MXW-GuestPSK" ∈ network.tags <;>
        simp only [h1, h2, if_pos, if_neg, not_false_iff] <;>
          cases d.updateNetworkWirelessSsid network.id mrN psk <;>
            cases d.updateNetworkApplianceSsid network.id mxN psk <;> simp
  · intro nid nname
    unfold processTaggedNetwork
    simp

/-- Claim C1: if the dashboard client raises on one tagged network's wireless
update (`d'` fails on `netA`, agreeing with `d` on every other network id),
that exception is recorded as a failure entry of the run, the run's lists are
still the per-network entries of every enumerated network joined in order, and
every network with a different id produces exactly the entries it would have
produced without the failure. -/
theorem C1_failure_isolation (d d' : Dashboard) (psk : String) (mrN mxN : Nat)
    (nets : List Network) (netA : Network) (e : PyErr)
    (hmem : netA ∈ nets)
    (htag : "MX-GuestPSK" ∈ netA.tags)
    (hfail : d'.updateNetworkWirelessSsid netA.id mrN psk = .error e)
    (hagreeW : ∀ nid, nid ≠ netA.id →
      d'.updateNetworkWirelessSsid nid = d.updateNetworkWirelessSsid nid)
    (hagreeA : ∀ nid, nid ≠ netA.id →
      d'.updateNetworkApplianceSsid nid = d.updateNetworkApplianceSsid nid) :
    mrFailMsg mrN netA.name netA.id (errStr e)
        ∈ (update_ssid_by_num_for_tagged_networks d' psk nets mrN mxN).2
    ∧ (update_ssid_by_num_for_tagged_networks d' psk nets mrN mxN).1
        = (nets.map fun n => (processTaggedNetwork d' psk mrN mxN n).1).flatten
    ∧ (update_ssid_by_num_for_tagged_networks d' psk nets mrN mxN).2
        = (nets.map fun n => (processTaggedNetwork d' psk mrN mxN n).2.1).flatten
    ∧ ∀ net ∈ nets, net.id ≠ netA.id →
        processTaggedNetwork d' psk mrN mxN net = processTaggedNetwork d psk mrN mxN net := by
  have hA : mrFailMsg mrN netA.name netA.id (errStr e)
      ∈ (processTaggedNetwork d' psk mrN mxN netA).2.1 := by
    unfold processTaggedNetwork
    simp only [if_pos htag, hfail]
    simp
  refine ⟨?_, ?_, ?_, ?_⟩
  · rw [bulk_pair_eq_run, bulk_run_eq_join]
    simp only [List.mem_flatten]
    exact ⟨(processTaggedNetwork d' psk mrN mxN netA).2.1,
      List.mem_map_of_mem _ hmem, hA⟩
  · rw [bulk_pair_eq_run, bulk_run_eq_join]
  · rw [bulk_pair_eq_run, bulk_run_eq_join]
  · intro net _ hne
    unfold processTaggedNetwork
    rw [hagreeW net.id hne, hagreeA net.id hne]

/-- Witness for C1 at concrete inputs: `dashFailNA` raises only on network id
`"NA"`; the run over `[netB0, netA0]` records the failure for `netA0` and
leaves `netB0`'s entries exactly as under `dashOk`. -/
theorem C1_failure_isolation_witness :
    netA0 ∈ [netB0, netA0]
    ∧ "MX-GuestPSK" ∈ netA0.tags
    ∧ dashFailNA.updateNetworkWirelessSsid netA0.id 2 "Summer2024!"
        = .error (.apiError "boom")
    ∧ (mrFailMsg 2 netA0.name netA0.id (errStr (.apiError "boom"))
          ∈ (update_ssid_by_num_for_tagged_networks dashFailNA "Summer2024!" [netB0, netA0] 2 2).2
      ∧ (update_ssid_by_num_for_tagged_networks dashFailNA "Summer2024!" [netB0, netA0] 2 2).1
          = ([netB0, netA0].map fun n =>
              (processTaggedNetwork dashFailNA "Summer2024!" 2 2 n).1).flatten
      ∧ (update_ssid_by_num_for_tagged_networks dashFailNA "Summer2024!" [netB0, netA0] 2 2).2
          = ([netB0, netA0].map fun n =>
              (processTaggedNetwork dashFailNA "Summer2024!" 2 2 n).2.1).flatten
      ∧ ∀ net ∈ [netB0, netA0], net.id ≠ netA0.id →
          processTaggedNetwork dashFailNA "Summer2024!" 2 2 net
            = processTaggedNetwork dashOk "Summer2024!" 2 2 net) := by
  have hagreeW : ∀ nid, nid ≠ netA0.id →
      dashFailNA.updateNetworkWirelessSsid nid = dashOk.updateNetworkWirelessSsid nid := by
    intro nid h
    funext num p
    simp only [dashFailNA, dashOk, netA0] at h ⊢
    rw [if_neg h]
  have hagreeA : ∀ nid, nid ≠ netA0.id →
      dashFailNA.updateNetworkApplianceSsid nid = dashOk.updateNetworkApplianceSsid nid := by
    intro nid _
    rfl
  exact ⟨by decide, by decide, by rfl,
    C1_failure_isolation dashOk dashFailNA "Summer2024!" 2 2 [netB0, netA0] netA0
      (.apiError "boom") (by decide) (by decide) (by rfl) hagreeW hagreeA⟩

/-- Claim C5: the two returned lists hold the per-network attempt outcomes
joined in the order the networks were enumerated, with each network's wireless
attempt entry preceding its appliance attempt entry, and each attempt
contributing exactly one outcome (so nothing is dropped, duplicated or
re-sorted relative to the attempts). -/
theorem C5_stable_enumeration_order (d : Dashboard) (psk : String)
    (mrN mxN : Nat) (nets : List Network) :
    ((update_ssid_by_num_for_tagged_networks d psk nets mrN mxN).1
        = (nets.map fun n =>
            (mrAttemptOutcomes d psk mrN n).1 ++ (mxAttemptOutcomes d psk mxN n).1).flatten
      ∧ (update_ssid_by_num_for_tagged_networks d psk nets mrN mxN).2
        = (nets.map fun n =>
            (mrAttemptOutcomes d psk mrN n).2 ++ (mxAttemptOutcomes d psk mxN n).2).flatten)
    ∧ (∀ network : Network,
        (mrAttemptOutcomes d psk mrN network).1.length
          + (mrAttemptOutcomes d psk mrN network).2.length
          = if "MX-GuestPSK" ∈ network.tags then 1 else 0)
    ∧ (∀ network : Network,
        (mxAttemptOutcomes d psk mxN network).1.length
          + (mxAttemptOutcomes d psk mxN network).2.length
          = if "MXW-GuestPSK" ∈ network.tags then 1 else 0) := by
  refine ⟨⟨?_, ?_⟩, ?_, ?_⟩
  · rw [bulk_pair_eq_run, bulk_run_eq_join]
    exact congrArg List.flatten
      (List.map_congr_left fun n _ => processTaggedNetwork_fst d psk mrN mxN n)
  · rw [bulk_pair_eq_run, bulk_run_eq_join]
    exact congrArg List.flatten
      (List.map_congr_left fun n _ => processTaggedNetwork_snd d psk mrN mxN n)
  · intro network
    unfold mrAttemptOutcomes
    by_cases h : "MX-GuestPSK" ∈ network.tags <;>
      simp only [h, if_true, if_false]
    · cases d.updateNetworkWirelessSsid network.id mrN psk <;> simp
    · rfl
  · intro network
    unfold mxAttemptOutcomes
    by_cases h : "MXW-GuestPSK" ∈ network.tags <;>
      simp only [h, if_true, if_false]
    · cases d.updateNetworkApplianceSsid network.id mxN psk <;> simp
    · rfl

/-- Claim C4: with the default slot numbers (2, 2) used by `run_psk_change`,
every enumerated network tagged `"MX-GuestPSK"` receives a wireless SSID
update call at slot 2 and every network tagged `"MXW-GuestPSK"` receives an
appliance SSID update call at slot 2; on the concrete scenario
`[N1:["MX-GuestPSK"], N2:["MXW-GuestPSK"], N3:[]]` with PSK `"Summer2024!"`
(both scenario calls succeeding), the run returns exactly the two outcomes for
N1 (wireless, slot 2) and N2 (appliance, slot 2), no failures, and issues
exactly those two calls — none touching N3. -/
theorem C4_slot_two_and_scenario (d : Dashboard) (psk : String)
    (nets : List Network)
    (hN1 : d.updateNetworkWirelessSsid "N1" 2 "Summer2024!" = .ok ())
    (hN2 : d.updateNetworkApplianceSsid "N2" 2 "Summer2024!" = .ok ()) :
    (∀ net ∈ nets, "MX-GuestPSK" ∈ net.tags →
        ApiCall.updateNetworkWirelessSsid net.id 2 psk
          ∈ (update_ssid_by_num_for_tagged_networks_run d psk nets 2 2).2.2)
    ∧ (∀ net ∈ nets, "MXW-GuestPSK" ∈ net.tags →
        ApiCall.updateNetworkApplianceSsid net.id 2 psk
          ∈ (update_ssid_by_num_for_tagged_networks_run d psk nets 2 2).2.2)
    ∧ update_ssid_by_num_for_tagged_networks d "Summer2024!"
        [scenarioN1, scenarioN2, scenarioN3] 2 2
        = ([mrSuccessMsg 2 "N1" "N1", mxSuccessMsg 2 "N2" "N2"], [])
    ∧ (update_ssid_by_num_for_tagged_networks_run d "Summer2024!"
        [scenarioN1, scenarioN2, scenarioN3] 2 2).2.2
        = [ApiCall.updateNetworkWirelessSsid "N1" 2 "Summer2024!",
           ApiCall.updateNetworkApplianceSsid "N2" 2 "Summer2024!"] := by
  refine ⟨?_, ?_, ?_, ?_⟩
  · intro net hmem htag
    rw [bulk_run_eq_join]
    simp only [List.mem_flatten]
    exact ⟨(processTaggedNetwork d psk 2 2 net).2.2, List.mem_map_of_mem _ hmem,
      processTaggedNetwork_wireless_call d psk 2 2 net htag⟩
  · intro net hmem htag
    rw [bulk_run_eq_join]
    simp only [List.mem_flatten]
    exact ⟨(processTaggedNetwork d psk 2 2 net).2.2, List.mem_map_of_mem _ hmem,
      processTaggedNetwork_appliance_call d psk 2 2 net htag⟩
  · simp [update_ssid_by_num_for_tagged_networks,
      update_ssid_by_num_for_tagged_networks_run, processTaggedNetwork,
      scenarioN1, scenarioN2, scenarioN3, hN1, hN2]
  · simp [update_ssid_by_num_for_tagged_networks_run, processTaggedNetwork,
      scenarioN1, scenarioN2, scenarioN3, hN1, hN2]

/-- Witness for C4 on the all-succeeding dashboard and the scenario network
list itself. -/
theorem C4_slot_two_and_scenario_witness :
    dashOk.updateNetworkWirelessSsid "N1" 2 "Summer2024!" = .ok ()
    ∧ dashOk.updateNetworkApplianceSsid "N2" 2 "Summer2024!" = .ok ()
    ∧ ((∀ net ∈ [scenarioN1, scenarioN2, scenarioN3], "MX-GuestPSK" ∈ net.tags →
        ApiCall.updateNetworkWirelessSsid net.id 2 "Summer2024!"
          ∈ (update_ssid_by_num_for_tagged_networks_run dashOk "Summer2024!"
              [scenarioN1, scenarioN2, scenarioN3] 2 2).2.2)
      ∧ (∀ net ∈ [scenarioN1, scenarioN2, scenarioN3], "MXW-GuestPSK" ∈ net.tags →
        ApiCall.updateNetworkApplianceSsid net.id 2 "Summer2024!"
          ∈ (update_ssid_by_num_for_tagged_networks_run dashOk "Summer2024!"
              [scenarioN1, scenarioN2, scenarioN3] 2 2).2.2)
      ∧ update_ssid_by_num_for_tagged_networks dashOk "Summer2024!"
          [scenarioN1, scenarioN2, scenarioN3] 2 2
          = ([mrSuccessMsg 2 "N1" "N1", mxSuccessMsg 2 "N2" "N2"], [])
      ∧ (update_ssid_by_num_for_tagged_networks_run dashOk "Summer2024!"
          [scenarioN1, scenarioN2, scenarioN3] 2 2).2.2
          = [ApiCall.updateNetworkWirelessSsid "N1" 2 "Summer2024!",
             ApiCall.updateNetworkApplianceSsid "N2" 2 "Summer2024!"]) :=
  ⟨rfl, rfl,
    C4_slot_two_and_scenario dashOk "Summer2024!"
      [scenarioN1, scenarioN2, scenarioN3] rfl rfl⟩

/-- The two report paths of one run never coincide (their fixed parts differ
in length). -/
theorem success_path_ne_failure_path (t : String) :
    success_file_path t ≠ failure_file_path t := by
  intro h
  have h2 := congrArg String.length h
  simp [success_file_path, failure_file_path, DATA_FILE_PATH,
    String.length_append] at h2
  exact absurd h2 (by decide)

/-- Claim C3 (amended): a list's JSON file is written iff that list is
non-empty, but the pair of path strings is returned unconditionally — also for
files that were not written; with two empty lists nothing is written and the
two (unwritten) paths are still returned. -/
theorem C3_write_iff_nonempty (t : String) (s f : List String) :
    ((∃ content, (success_file_path t, content) ∈ (generate_reports t s f).1) ↔ s ≠ [])
    ∧ ((∃ content, (failure_file_path t, content) ∈ (generate_reports t s f).1) ↔ f ≠ [])
    ∧ (generate_reports t s f).2 = (success_file_path t, failure_file_path t)
    ∧ (generate_reports t [] []).1 = [] := by
  have hne := success_path_ne_failure_path t
  unfold generate_reports
  refine ⟨?_, ?_, rfl, rfl⟩
  · constructor
    · rintro ⟨c, hc⟩ hs
      subst hs
      simp only [List.isEmpty_nil, if_true, List.nil_append] at hc
      rcases hf : f.isEmpty with _ | _ <;> rw [hf] at hc <;> simp at hc
      exact hne hc.1
    · intro hs
      refine ⟨json_dump_indent4 s, ?_⟩
      have : s.isEmpty = false := by
        cases s with
        | nil => exact absurd rfl hs
        | cons a l => rfl
      simp [this]
  · constructor
    · rintro ⟨c, hc⟩ hf
      subst hf
      simp only [List.isEmpty_nil, if_true, List.append_nil] at hc
      rcases hs : s.isEmpty with _ | _ <;> rw [hs] at hc <;> simp at hc
      exact hne hc.1.symm
    · intro hf
      refine ⟨json_dump_indent4 f, ?_⟩
      have : f.isEmpty = false := by
        cases f with
        | nil => exact absurd rfl hf
        | cons a l => rfl
      simp [this]

/-- Counterexample to C3 as stated: with two empty lists the writer writes
zero files, yet it returns the two concrete path strings — not two
absent/null paths. -/
theorem C3_counterexample :
    (generate_reports "20240101000000" [] []).1 = []
    ∧ (generate_reports "20240101000000" [] []).2
        = ("app/data/successful_psk_changes_20240101000000.json",
           "app/data/unsuccessful_psk_changes_20240101000000.json") := by
  constructor <;> rfl

/-- Claim C6 (amended): called with a one-element success list and an empty
failure list, the writer writes exactly one file — the success file, whose
content is the indented one-element JSON array containing that record — but
returns the failure path string as well, not an absent failure path.  The
concrete shape of the indented document is shown on the record `"s1"`. -/
theorem C6_single_success_report (t s1 : String) :
    (generate_reports t [s1] []).1
      = [(success_file_path t, json_dump_indent4 [s1])]
    ∧ json_dump_indent4 [s1] = "[\n    " ++ jsonString s1 ++ "\n]"
    ∧ json_dump_indent4 ["s1"] = "[\n    \"s1\"\n]"
    ∧ (generate_reports t [s1] []).2 = (success_file_path t, failure_file_path t) := by
  refine ⟨rfl, ?_, ?_, rfl⟩
  · simp [json_dump_indent4, String.intercalate, String.intercalate.go]
  · rfl

/-- Counterexample to C6 as stated: with `["s1"]` and `[]` the writer writes
exactly the one success file with the expected indented JSON content, yet the
returned failure path is the concrete path string of the unwritten file — not
absent. -/
theorem C6_counterexample :
    (generate_reports "20240202000000" ["s1"] []).1
      = [("app/data/successful_psk_changes_20240202000000.json", "[\n    \"s1\"\n]")]
    ∧ (generate_reports "20240202000000" ["s1"] []).2.2
      = "app/data/unsuccessful_psk_changes_20240202000000.json" := by
  constructor <;> rfl

/-- Claim C7: update-by-name on a single wireless network resolves the name by
scanning the fetched SSID list for an exact match; when no entry carries the
name, the resolution fails with the `"SSID not found"` Not-Found condition and
the entry point performs no mutating call — its only dashboard call is the
SSID-list read. -/
theorem C7_by_name_not_found_no_mutation (d : Dashboard)
    (network_id ssid_name psk : String) (ssids : List Ssid)
    (hfetch : d.getNetworkWirelessSsids network_id = .ok ssids)
    (hnone : ∀ s ∈ ssids, s.name ≠ ssid_name) :
    (get_ssid_num d network_id ssid_name "mrw").1
        = .error (.valueError "SSID not found")
    ∧ update_ssid_psk_by_name_for_network d network_id ssid_name psk "mrw"
        = (.ok (), [ApiCall.getNetworkWirelessSsids network_id])
    ∧ ∀ call ∈ (update_ssid_psk_by_name_for_network d network_id ssid_name psk "mrw").2,
        call.isMutating = false := by
  have hfind : ssids.find? (fun ssid => ssid.name = ssid_name) = none := by
    rw [List.find?_eq_none]
    intro s hs
    simp [hnone s hs]
  have hnum : get_ssid_num d network_id ssid_name "mrw"
      = (.error (.valueError "SSID not found"), [ApiCall.getNetworkWirelessSsids network_id]) := by
    unfold get_ssid_num fetch_ssids
    simp [hfetch, hfind]
  have hbyname : update_ssid_psk_by_name_for_network d network_id ssid_name psk "mrw"
      = (.ok (), [ApiCall.getNetworkWirelessSsids network_id]) := by
    unfold update_ssid_psk_by_name_for_network
    simp [hnum]
  refine ⟨by rw [hnum], hbyname, ?_⟩
  rw [hbyname]
  intro call hc
  simp only [List.mem_singleton] at hc
  subst hc
  rfl

/-- Witness for C7: on `dashOk` the network's SSID list is `[{Guest, 5}]`, so
the name `"Missing"` resolves to nothing and no mutating call is issued. -/
theorem C7_by_name_not_found_no_mutation_witness :
    dashOk.getNetworkWirelessSsids "NW1" = .ok [⟨"Guest", 5⟩]
    ∧ (∀ s ∈ [(⟨"Guest", 5⟩ : Ssid)], s.name ≠ "Missing")
    ∧ ((get_ssid_num dashOk "NW1" "Missing" "mrw").1
          = .error (.valueError "SSID not found")
      ∧ update_ssid_psk_by_name_for_network dashOk "NW1" "Missing" "NewPass123" "mrw"
          = (.ok (), [ApiCall.getNetworkWirelessSsids "NW1"])
      ∧ ∀ call ∈ (update_ssid_psk_by_name_for_network dashOk "NW1" "Missing" "NewPass123" "mrw").2,
          call.isMutating = false) :=
  ⟨rfl, by decide,
    C7_by_name_not_found_no_mutation dashOk "NW1" "Missing" "NewPass123"
      [⟨"Guest", 5⟩] rfl (by decide)⟩

/-- Counterexample to C8 as stated: on a dashboard where slot 5 of network
`"NW1"` is the SSID `"Guest"`, update-by-index does return the post-update
details `{name := "Guest", number := 5}`, but update-by-name on the same
network returns plain `None` (unit) — it discards the details instead of
returning them, so the two entry points do not both return the post-update
SSID details. -/
theorem C8_counterexample :
    (update_ssid_psk_by_num dashOk "NW1" 5 "NewPass123" "mrw").1
      = .ok ⟨"Guest", 5⟩
    ∧ (update_ssid_psk_by_name_for_network dashOk "NW1" "Guest" "NewPass123" "mrw").1
      = .ok () := by
  constructor <;> rfl

/-- Claim C8 (amended): update-by-index returns the post-update SSID details
obtained by a follow-up read issued after the update call (in particular,
slot 5 occupied by `"Guest"` yields name `"Guest"` and slot 5), while
update-by-name performs its update but always returns either plain `None` or a
propagated client error — never SSID details. -/
theorem C8_read_after_write (d : Dashboard) (network_id : String) (num : Nat)
    (psk : String) (details : Ssid)
    (hupd : d.updateNetworkWirelessSsid network_id num psk = .ok ())
    (hget : d.getNetworkWirelessSsid network_id num = .ok details) :
    update_ssid_psk_by_num d network_id num psk "mrw"
      = (.ok details, [ApiCall.updateNetworkWirelessSsid network_id num psk,
                       ApiCall.getNetworkWirelessSsid network_id num])
    ∧ (update_ssid_psk_by_num dashOk "NW1" 5 "NewPass123" "mrw").1 = .ok ⟨"Guest", 5⟩
    ∧ ∀ (d2 : Dashboard) (nid ssid_name psk2 : String),
        (update_ssid_psk_by_name_for_network d2 nid ssid_name psk2 "mrw").1 = .ok ()
        ∨ ∃ m, (update_ssid_psk_by_name_for_network d2 nid ssid_name psk2 "mrw").1
            = .error (.apiError m) := by
  refine ⟨?_, rfl, ?_⟩
  · unfold update_ssid_psk_by_num get_ssid_details_by_num
    simp [hupd, hget]
  · intro d2 nid ssid_name psk2
    rcases h1 : (get_ssid_num d2 nid ssid_name "mrw").1 with e | n
    · cases e with
      | valueError m =>
          left
          unfold update_ssid_psk_by_name_for_network
          simp [h1]
      | apiError m =>
          right
          refine ⟨m, ?_⟩
          unfold update_ssid_psk_by_name_for_network
          simp [h1]
    · rcases h2 : (update_ssid_psk_by_num d2 nid n psk2 "mrw").1 with e2 | det
      · cases e2 with
        | valueError m =>
            left
            unfold update_ssid_psk_by_name_for_network
            simp [h1, h2]
        | apiError m =>
            right
            refine ⟨m, ?_⟩
            unfold update_ssid_psk_by_name_for_network
            simp [h1, h2]
      · left
        unfold update_ssid_psk_by_name_for_network
        simp [h1, h2]

/-- Witness for C8 (amended) on the concrete dashboard with `"Guest"` in
slot 5. -/
theorem C8_read_after_write_witness :
    dashOk.updateNetworkWirelessSsid "NW1" 5 "NewPass123" = .ok ()
    ∧ dashOk.getNetworkWirelessSsid "NW1" 5 = .ok ⟨"Guest", 5⟩
    ∧ (update_ssid_psk_by_num dashOk "NW1" 5 "NewPass123" "mrw"
        = (.ok ⟨"Guest", 5⟩, [ApiCall.updateNetworkWirelessSsid "NW1" 5 "NewPass123",
                              ApiCall.getNetworkWirelessSsid "NW1" 5])
      ∧ (update_ssid_psk_by_num dashOk "NW1" 5 "NewPass123" "mrw").1 = .ok ⟨"Guest", 5⟩
      ∧ ∀ (d2 : Dashboard) (nid ssid_name psk2 : String),
          (update_ssid_psk_by_name_for_network d2 nid ssid_name psk2 "mrw").1 = .ok ()
          ∨ ∃ m, (update_ssid_psk_by_name_for_network d2 nid ssid_name psk2 "mrw").1
              = .error (.apiError m)) :=
  ⟨rfl, rfl, C8_read_after_write dashOk "NW1" 5 "NewPass123" ⟨"Guest", 5⟩ rfl rfl⟩

/-- Claim C9: the notification send catches every failure of the message or
attachment posts and returns normally, and the run's outcome lists and written
report files are the same whatever the messaging client (or room / filesystem
state) does — a failed notification never changes the PSK-update outcome of
the run. -/
theorem C9_notification_failure_isolated (api api2 : WebexApi)
    (room_id room2 : String) (pathExists pe2 : String → Bool)
    (message : String) (file_paths : List String) (d : Dashboard)
    (nets : List Network) (t psk : String) (flag : Bool) :
    send_webex_message api room_id pathExists message file_paths = .ok ()
    ∧ (run_psk_change d api room_id pathExists nets t psk flag).1
        = (run_psk_change d api2 room2 pe2 nets t psk flag).1
    ∧ (run_psk_change d api room_id pathExists nets t psk flag).2.1
        = (run_psk_change d api2 room2 pe2 nets t psk flag).2.1 := by
  refine ⟨?_, ?_, ?_⟩
  · unfold send_webex_message
    cases api.createMessage room_id message none with
    | error e => rfl
    | ok _ =>
        cases sendAttachments api room_id pathExists file_paths with
        | error e => rfl
        | ok _ => rfl
  · simp only [run_psk_change]
    split <;> rfl
  · simp only [run_psk_change]
    split <;> rfl

/-- Claim C10: update-by-name with network type `"mxw"` is a silent no-op for
every network id, SSID name and PSK: no SSID list read, no update call, no
error, and a plain `None` return. -/
theorem C10_by_name_mxw_noop (d : Dashboard) (network_id ssid_name psk : String) :
    update_ssid_psk_by_name_for_network d network_id ssid_name psk "mxw"
      = (.ok (), []) := by
  rfl
